import Mathlib

/-!
Shallow embedding of the debounce / cover / dispatch core of the
`py_mcp2221` repository (package `mcp2221_io`), covering:

* `src/mcp2221_io/io_device.py`  — `IODevice` base class (`state`
  property).  This copy of the base class defines no `_apply_inversion`
  (only the top-level `src/io_device.py`, which the package never imports,
  does), so `Actor.set`'s `try` body raises `AttributeError` at its first
  statement and the blanket `except` swallows it — `Actor.set` performs
  no observable action; the embedding models this always-taken error path
  explicitly;
* `src/mcp2221_io/io_sensor.py`  — `Sensor._check_and_update_state`,
  `Sensor.sync_poll_once`;
* `src/mcp2221_io/io_actor.py`   — `Actor.set`, `Actor._start_reset_timer`;
* `src/mcp2221_io/io_cover.py`   — `CoverState`, `Cover._determine_state`,
  `Cover.update_sensor_states`, `Cover._manage_movement_monitoring`, the
  movement-monitor loop body, and the command methods
  `open`/`close`/`stop`/`toggle`;
* `src/mcp2221_io/io_control.py` — `IOController._execute_actor_command`,
  `IOController._execute_cover_command`.

Times are modelled as integers in milliseconds (`time.monotonic()` values);
the source's literals `0.5` s, `60.0` s, `0.05` s appear as `500`, `60000`
and are kept as explicit state fields exactly as the Python objects keep
them.  Thread-based timers (the actor's reset thread, the cover's movement
monitor) are modelled by explicit state: an optional expiry instant for the
reset thread, and a running flag plus a step function for one iteration of
the monitor loop.  Callback invocations and pin writes are returned as
explicit event lists.
-/

namespace Mcp2221

/-- Python strings (command payloads) as lists of characters; Python's
`str.upper()` on the ASCII command vocabulary is `List.map Char.toUpper`. -/
abbrev Str := List Char

/-- `str.upper()` applied to a command payload. -/
def strUpper (s : Str) : Str := s.map Char.toUpper

/-- Events observable from outside a component: physical pin writes,
auto-reset firings (with the instant at which the reset thread fires),
and MQTT state publishes. -/
inductive Ev where
  | pinWrite (digital : Bool)
  | autoReset (t : ℤ)
  | publish (payload : Str)
  deriving DecidableEq, Repr

/-! ## io_device.py -/

/-- `IODevice.state` property (src/mcp2221_io/io_device.py, lines 30-33):
`return not self._state if self._inverted else self._state`. -/
def deviceStateProp (inverted stored : Bool) : Bool :=
  if inverted then !stored else stored

/-! ## io_sensor.py -/

/-- Per-sensor configuration: inversion flag, `_debounce_time`
(default 0.05 s = 50 ms) and `_stable_readings` (default 3). -/
structure SensorCfg where
  inverted : Bool
  debounceTime : ℤ
  stableReadings : ℕ
  deriving DecidableEq, Repr

/-- Mutable sensor fields touched by `_check_and_update_state`:
`_state`, `_last_raw`, `_stable_count`, `_last_debounce`. -/
structure SensorSt where
  state : Bool
  lastRaw : Option Bool
  stableCount : ℕ
  lastDebounce : ℤ
  deriving DecidableEq, Repr

/-- Fresh sensor state as set in `Sensor.__init__`:
`_state = False`, `_last_raw = None`, `_stable_count = 0`. -/
def sensorInit : SensorSt :=
  { state := false, lastRaw := none, stableCount := 0, lastDebounce := 0 }

/-- The logical (inversion-applied) value of a raw read:
`read_state = not raw_value if self._inverted else raw_value`. -/
def logicalRead (cfg : SensorCfg) (raw : Bool) : Bool :=
  if cfg.inverted then !raw else raw

/-- First half of `Sensor._check_and_update_state`
(src/mcp2221_io/io_sensor.py, lines 170-202): seed on the first read,
reset `_stable_count` to 1 and restart the debounce timer on a read whose
logical value differs from `_last_raw`, and increment `_stable_count` on
an equal read once the debounce window has elapsed. -/
def debounceAdvance (cfg : SensorCfg) (raw : Bool) (now : ℤ)
    (s : SensorSt) : SensorSt :=
  let readState := logicalRead cfg raw
  match s.lastRaw with
  | none =>
      { s with lastDebounce := now, lastRaw := some readState, stableCount := 1 }
  | some v =>
      if readState ≠ v then
        { s with lastDebounce := now, lastRaw := some readState, stableCount := 1 }
      else if cfg.debounceTime ≤ now - s.lastDebounce then
        { s with stableCount := s.stableCount + 1 }
      else s

/-- `Sensor._check_and_update_state` (src/mcp2221_io/io_sensor.py,
lines 161-230): the debounce advance above followed by the confirmation
step (lines 204-230) — when `_stable_count` has reached
`_stable_readings` and the logical value differs from the confirmed
`_state`, store it and invoke the `onChange` callback once.  Returns the
updated fields together with the callback invocations performed. -/
def checkAndUpdateState (cfg : SensorCfg) (raw : Bool) (now : ℤ)
    (s : SensorSt) : SensorSt × List Bool :=
  let readState := logicalRead cfg raw
  let s1 := debounceAdvance cfg raw now s
  if cfg.stableReadings ≤ s1.stableCount ∧ readState ≠ s1.state then
    ({ s1 with state := readState }, [readState])
  else (s1, [])

/-- `Sensor.sync_poll_once` (src/mcp2221_io/io_sensor.py, lines 135-159).
The raw pin read is passed as `Option Bool`: `none` models
`self._digital_pin.value` raising an exception, in which case the
`except` branch returns `(None, self._state)` without touching any field.
Result: the returned `(raw_value, state)` pair, the updated fields, and
the callback invocations. -/
def syncPollOnce (cfg : SensorCfg) (readResult : Option Bool) (now : ℤ)
    (s : SensorSt) : (Option Bool × Bool) × SensorSt × List Bool :=
  match readResult with
  | some raw =>
      let r := checkAndUpdateState cfg raw now s
      ((some raw, r.1.state), r.1, r.2)
  | none => ((none, s.state), s, [])

/-- A whole polling run: fold `_check_and_update_state` over a list of
(raw value, timestamp) polls, accumulating callback invocations. -/
def pollRun (cfg : SensorCfg) (polls : List (Bool × ℤ)) (s : SensorSt) :
    SensorSt × List Bool :=
  polls.foldl
    (fun acc p =>
      let r := checkAndUpdateState cfg p.1 p.2 acc.1
      (r.1, acc.2 ++ r.2))
    (s, [])

/-- Number of trailing polls in `polls` whose logical value is `v` —
the length of the maximal suffix of same-logical-value reads. -/
def trailingSame (cfg : SensorCfg) (v : Bool) (polls : List (Bool × ℤ)) : ℕ :=
  (polls.reverse.takeWhile (fun q => logicalRead cfg q.1 == v)).length

/-! ## io_actor.py

`Actor` (src/mcp2221_io/io_actor.py) subclasses `IODevice` (the package's
own `src/mcp2221_io/io_device.py`) and `DebugMixin`.  The whole body of
`Actor.set` sits in a `try` block whose first statement is
`digital_state = self._apply_inversion(state)` (line 55); but no class in
the `Actor` method-resolution order defines `_apply_inversion` — the
package's `io_device.py` has only `pin`, `state` and `state_raw`, and
`debug_mixin.py` only `debug_*` helpers (the method exists solely in the
top-level `src/io_device.py`, which this package never imports).  Every
call to `set` therefore raises `AttributeError` at that first statement,
swallowed by the blanket `except Exception` (line 65): no pin write, no
`_state` update, and no reset thread, ever.  The reset thread started by
`_start_reset_timer` would sleep `_reset_delay` seconds and then call
`set(False)` (or the injected `on_reset`); it is modelled by
`pendingReset`, the instant at which an alive reset thread will fire
(`none` when no thread is alive).  `_start_reset_timer` returns without
doing anything when `self._reset_thread and self._reset_thread.is_alive()`
— it has no cancellation code at all. -/

structure ActorSt where
  inverted : Bool
  resetDelay : ℤ
  state : Bool := false
  pendingReset : Option ℤ := none
  deriving DecidableEq, Repr

/-- `Actor._start_reset_timer` (src/mcp2221_io/io_actor.py, lines 69-93)
called at instant `now`: if the reset thread is alive, return (keeping the
old expiry); otherwise start a thread that will fire at
`now + reset_delay`.  (Reachable only from `set`'s `try` block, i.e.
never in the real program; kept for the translation of that block.) -/
def startResetTimer (now : ℤ) (a : ActorSt) : ActorSt :=
  match a.pendingReset with
  | some _ => a
  | none => { a with pendingReset := some (now + a.resetDelay) }

/-- The attribute lookup `self._apply_inversion` on an `Actor` instance:
`Actor` itself, `IODevice` (src/mcp2221_io/io_device.py, the whole file)
and `DebugMixin` (src/mcp2221_io/debug_mixin.py) define no such method
and nothing assigns it dynamically, so the lookup fails (`none` =
`AttributeError`). -/
def actorApplyInversionLookup : Option (Bool → Bool → Bool) := none

/-- `Actor.set` (src/mcp2221_io/io_actor.py, lines 48-67) at instant
`now`.  The `try` body would apply `_apply_inversion`, write the physical
pin, store the logical state and — when `state` is true and
`reset_delay > 0` — call `_start_reset_timer`; but the lookup of
`_apply_inversion` fails on its first line, and the `except Exception`
branch (line 65) only logs: the call returns with nothing written,
nothing stored and no thread armed. -/
def actorSet (now : ℤ) (value : Bool) (a : ActorSt) : ActorSt × List Ev :=
  match actorApplyInversionLookup with
  | some applyInv =>
      let digital := applyInv a.inverted value
      let a1 := { a with state := value }
      let a2 := if value ∧ 0 < a.resetDelay then startResetTimer now a1 else a1
      (a2, [Ev.pinWrite digital])
  | none => (a, [])

/-- Fire the pending reset thread if its expiry is at or before `now`:
the thread body calls `self.set(False)` (the default, with no injected
`on_reset`) at its expiry instant and then terminates.  The fired reset
is recorded as an `Ev.autoReset` event carrying the instant it fired. -/
def fireDueReset (now : ℤ) (a : ActorSt) : ActorSt × List Ev :=
  match a.pendingReset with
  | some e =>
      if e ≤ now then
        let r := actorSet e false { a with pendingReset := none }
        (r.1, Ev.autoReset e :: r.2)
      else (a, [])
  | none => (a, [])

/-- One `set` call of a run: fire any due reset thread, then perform the
call, accumulating the events of both. -/
def actorCallStep (acc : ActorSt × List Ev) (c : ℤ × Bool) :
    ActorSt × List Ev :=
  let f := fireDueReset c.1 acc.1
  let r := actorSet c.1 c.2 f.1
  (r.1, acc.2 ++ f.2 ++ r.2)

/-- Run a list of `set` calls, each tagged with its instant (strictly
increasing), firing any due reset thread before each call, and finally
letting any still-pending reset thread fire ("eventual auto-reset"). -/
def runActorCalls (calls : List (ℤ × Bool)) (a : ActorSt) : ActorSt × List Ev :=
  let step := calls.foldl actorCallStep (a, [])
  match step.1.pendingReset with
  | some e =>
      let r := actorSet e false { step.1 with pendingReset := none }
      (r.1, step.2 ++ Ev.autoReset e :: r.2)
  | none => step

/-- The instants at which auto-resets fired during a run. -/
def resetTimes (evs : List Ev) : List ℤ :=
  evs.filterMap (fun e => match e with | Ev.autoReset t => some t | _ => none)

/-! ## io_cover.py -/

/-- `CoverState` (src/mcp2221_io/io_cover.py, lines 13-20). -/
inductive CoverState where
  | open_
  | closed
  | opening
  | closing
  | unknown
  | error
  deriving DecidableEq, Repr

/-- `Cover._determine_state` (src/mcp2221_io/io_cover.py, lines 219-260). -/
def determineState (openState closedState : Bool) (oldState : CoverState) :
    CoverState :=
  if closedState ∧ ¬openState then CoverState.closed
  else if ¬closedState ∧ openState then CoverState.open_
  else if closedState ∧ openState then CoverState.error
  else
    if oldState = CoverState.open_ ∨ oldState = CoverState.opening then
      CoverState.closing
    else if oldState = CoverState.closed ∨ oldState = CoverState.closing then
      CoverState.opening
    else CoverState.unknown

/-- The `Cover` fields read or written by `update_sensor_states`,
`_manage_movement_monitoring`, the movement-monitor loop and the command
methods (src/mcp2221_io/io_cover.py, `__init__`, lines 33-82).
`monitorsStarted` counts calls to `_start_movement_monitoring` (threads
spawned). -/
structure CoverSt where
  actor : ActorSt
  state : CoverState := CoverState.unknown
  sensorOpen : Bool := false
  sensorClosed : Bool := false
  lastActionTime : ℤ
  movementTimeout : ℤ := 60000
  monitorRunning : Bool := false
  monitorsStarted : ℕ := 0
  verificationCount : ℕ := 0
  minVerificationCount : ℕ := 2
  lastVerifiedReading : Option (Bool × Bool) := none
  lastUnverifiedReading : Option (Bool × Bool) := none
  unstableReadingsCount : ℕ := 0
  stabilizationDelay : ℤ := 500
  initializationTime : ℤ
  initialized : Bool := false
  deriving DecidableEq, Repr

/-- A cover as built by `Cover.__init__` at instant `t` with actor `a`
(`_movement_timeout = 60.0` s, `_min_verification_count = 2`,
`_stabilization_delay = 0.5` s, `_last_verified_reading = None`). -/
def mkCover (t : ℤ) (a : ActorSt) : CoverSt :=
  { actor := a, lastActionTime := t, initializationTime := t }

/-- `Cover._manage_movement_monitoring` (src/mcp2221_io/io_cover.py,
lines 262-282): on a movement state refresh `_last_action_time` and start
the monitor thread only if none is running; on a non-movement state clear
the running flag (the thread then exits by itself). -/
def manageMovementMonitoring (newState : CoverState) (now : ℤ)
    (c : CoverSt) : CoverSt :=
  if newState = CoverState.opening ∨ newState = CoverState.closing then
    let c1 := { c with lastActionTime := now }
    if c1.monitorRunning then c1
    else { c1 with monitorRunning := true, monitorsStarted := c1.monitorsStarted + 1 }
  else if c.monitorRunning then { c with monitorRunning := false }
  else c

/-- One iteration of the movement-monitor loop body
(src/mcp2221_io/io_cover.py, lines 288-321) evaluated at instant `now`:
while the running flag holds, once `now - _last_action_time` exceeds
`_movement_timeout` the thread forces `UNKNOWN` (when the state is still a
movement), invokes the state-changed callback, clears the running flag and
breaks.  Returns the callback invocations performed. -/
def monitorStep (now : ℤ) (c : CoverSt) : CoverSt × List CoverState :=
  if ¬c.monitorRunning then (c, [])
  else if c.movementTimeout < now - c.lastActionTime then
    if c.state = CoverState.opening ∨ c.state = CoverState.closing then
      ({ c with state := CoverState.unknown, monitorRunning := false },
        [CoverState.unknown])
    else ({ c with monitorRunning := false }, [])
  else (c, [])

/-- `Cover.update_sensor_states` (src/mcp2221_io/io_cover.py,
lines 109-217) at instant `now`.  Returns the updated cover and the
state-changed callback invocations performed. -/
def updateSensorStates (openState closedState : Bool) (now : ℤ)
    (c : CoverSt) : CoverSt × List CoverState :=
  -- stabilization window after construction
  if ¬c.initialized ∧ now - c.initializationTime < c.stabilizationDelay then
    (c, [])
  else
    let c := { c with initialized := true }
    let oldState := c.state
    let currentReading := (openState, closedState)
    let readingChanged := some currentReading ≠ c.lastVerifiedReading
    -- pairwise verification
    let verified :=
      if readingChanged then
        if c.lastUnverifiedReading = some currentReading then
          let vc := c.verificationCount + 1
          if c.minVerificationCount ≤ vc then
            Sum.inl { c with lastVerifiedReading := some currentReading,
                             verificationCount := 0, unstableReadingsCount := 0 }
          else
            Sum.inr { c with verificationCount := vc,
                             lastUnverifiedReading := some currentReading }
        else
          let c1 := { c with verificationCount := 1,
                             lastUnverifiedReading := some currentReading,
                             unstableReadingsCount := c.unstableReadingsCount + 1 }
          if 5 < c1.unstableReadingsCount then
            Sum.inr { c1 with minVerificationCount :=
                                max c1.minVerificationCount 3 }
          else Sum.inr c1
      else Sum.inl c
    match verified with
    | Sum.inr c1 => (c1, [])
    | Sum.inl c1 =>
        let c2 := { c1 with sensorOpen := openState, sensorClosed := closedState }
        let newState := determineState openState closedState oldState
        if newState ≠ oldState then
          let c3 := manageMovementMonitoring newState now
            { c2 with state := newState }
          (c3, [newState])
        else (c2, [])

/-- A sequence of `update_sensor_states` calls, each a
(open, closed, instant) triple, accumulating callback invocations. -/
def runCoverUpdates (updates : List (Bool × Bool × ℤ)) (c : CoverSt) :
    CoverSt × List CoverState :=
  updates.foldl
    (fun acc u =>
      let r := updateSensorStates u.1 u.2.1 u.2.2 acc.1
      (r.1, acc.2 ++ r.2))
    (c, [])

/-- `Cover.open` (src/mcp2221_io/io_cover.py, lines 368-397): pulse the
actor; when currently `CLOSED`, reset verification, set `OPENING`, manage
monitoring and fire the callback.  Returns actor events and callback
invocations. -/
def coverOpen (now : ℤ) (c : CoverSt) : CoverSt × List Ev × List CoverState :=
  let r := actorSet now true c.actor
  let c1 := { c with actor := r.1 }
  if c1.state = CoverState.closed then
    let c2 := { c1 with verificationCount := 0, unstableReadingsCount := 0,
                        lastVerifiedReading := some (c1.sensorOpen, false),
                        state := CoverState.opening }
    let c3 := manageMovementMonitoring CoverState.opening now c2
    (c3, r.2, [CoverState.opening])
  else (c1, r.2, [])

/-- `Cover.close` (src/mcp2221_io/io_cover.py, lines 399-428): pulse the
actor; when currently `OPEN`, reset verification, set `CLOSING`, manage
monitoring and fire the callback. -/
def coverClose (now : ℤ) (c : CoverSt) : CoverSt × List Ev × List CoverState :=
  let r := actorSet now true c.actor
  let c1 := { c with actor := r.1 }
  if c1.state = CoverState.open_ then
    let c2 := { c1 with verificationCount := 0, unstableReadingsCount := 0,
                        lastVerifiedReading := some (false, c1.sensorClosed),
                        state := CoverState.closing }
    let c3 := manageMovementMonitoring CoverState.closing now c2
    (c3, r.2, [CoverState.closing])
  else (c1, r.2, [])

/-- `Cover.stop` (src/mcp2221_io/io_cover.py, lines 430-454): pulse the
actor; when currently moving, force `UNKNOWN`, manage monitoring and fire
the callback. -/
def coverStop (now : ℤ) (c : CoverSt) : CoverSt × List Ev × List CoverState :=
  let r := actorSet now true c.actor
  let c1 := { c with actor := r.1 }
  if c1.state = CoverState.opening ∨ c1.state = CoverState.closing then
    let c2 := manageMovementMonitoring CoverState.unknown now
      { c1 with state := CoverState.unknown }
    (c2, r.2, [CoverState.unknown])
  else (c1, r.2, [])

/-- `Cover.toggle` (src/mcp2221_io/io_cover.py, lines 456-509): always
pulse the actor; predict the next movement from the current state
(`CLOSED → OPENING`, `OPEN → CLOSING`, moving → `UNKNOWN`,
`UNKNOWN`/`ERROR → OPENING`), firing the callback only on a change. -/
def coverToggle (now : ℤ) (c : CoverSt) : CoverSt × List Ev × List CoverState :=
  let r := actorSet now true c.actor
  let c1 := { c with actor := r.1 }
  let oldState := c1.state
  let c2 :=
    if c1.state = CoverState.closed then
      { c1 with state := CoverState.opening,
                verificationCount := 0, unstableReadingsCount := 0,
                lastVerifiedReading := some (c1.sensorOpen, false) }
    else if c1.state = CoverState.open_ then
      { c1 with state := CoverState.closing,
                verificationCount := 0, unstableReadingsCount := 0,
                lastVerifiedReading := some (false, c1.sensorClosed) }
    else if c1.state = CoverState.opening ∨ c1.state = CoverState.closing then
      { c1 with state := CoverState.unknown }
    else if c1.state = CoverState.unknown ∨ c1.state = CoverState.error then
      { c1 with state := CoverState.opening }
    else c1
  if oldState ≠ c2.state then
    let c3 := manageMovementMonitoring c2.state now c2
    (c3, r.2, [c2.state])
  else (c2, r.2, [])

/-! ## io_control.py -/

/-- Entity types the controller distinguishes for actor commands. -/
inductive EntityType where
  | switch
  | lock
  | button
  deriving DecidableEq, Repr

/-- `IOController._execute_cover_command` (src/mcp2221_io/io_control.py,
lines 349-372): upper-case the command, then dispatch to the cover's
`open`/`close`/`stop`/`toggle`; an unknown command is only logged. -/
def executeCoverCommand (command : Str) (now : ℤ) (c : CoverSt) :
    CoverSt × List Ev × List CoverState :=
  let cmd := strUpper command
  if cmd = ['O', 'P', 'E', 'N'] then coverOpen now c
  else if cmd = ['C', 'L', 'O', 'S', 'E'] then coverClose now c
  else if cmd = ['S', 'T', 'O', 'P'] then coverStop now c
  else if cmd = ['T', 'O', 'G', 'G', 'L', 'E'] then coverToggle now c
  else (c, [], [])

/-- `IOController._execute_actor_command` (src/mcp2221_io/io_control.py,
lines 374-450) with an MQTT handler configured.  The command string is
compared verbatim (no upper-casing) against `"ON"` resp. `"UNLOCK"`;
`current_state` is the actor's `state` property (inversion applied to the
stored state); when it already equals the requested state and the entity
is not a button the command returns without acting; otherwise the actor is
set and — for switches and locks — the state topic is published. -/
def executeActorCommand (entityType : EntityType) (command : Str) (now : ℤ)
    (a : ActorSt) : ActorSt × List Ev :=
  let newState :=
    match entityType with
    | EntityType.switch => command = ['O', 'N']
    | EntityType.lock => command = ['U', 'N', 'L', 'O', 'C', 'K']
    | EntityType.button => true
  let currentState := deviceStateProp a.inverted a.state
  if currentState = newState ∧ entityType ≠ EntityType.button then (a, [])
  else
    match entityType with
    | EntityType.switch =>
        let r := actorSet now newState a
        (r.1, r.2 ++ [Ev.publish command])
    | EntityType.lock =>
        let r := actorSet now newState a
        (r.1, r.2 ++
          [Ev.publish (if newState then
              ['U', 'N', 'L', 'O', 'C', 'K', 'E', 'D']
            else ['L', 'O', 'C', 'K', 'E', 'D'])])
    | EntityType.button =>
        actorSet now true a

/-- Two consecutive controller commands against the same actor, with the
emitted events of both concatenated. -/
def execActorTwice (entityType : EntityType) (command : Str)
    (now1 now2 : ℤ) (a : ActorSt) : ActorSt × List Ev :=
  let r1 := executeActorCommand entityType command now1 a
  let r2 := executeActorCommand entityType command now2 r1.1
  (r2.1, r1.2 ++ r2.2)

/-- Count of physical pin writes in an event list. -/
def countPinWrites (evs : List Ev) : ℕ :=
  (evs.filter (fun e => match e with | Ev.pinWrite _ => true | _ => false)).length

/-- Count of MQTT state publishes in an event list. -/
def countPublishes (evs : List Ev) : ℕ :=
  (evs.filter (fun e => match e with | Ev.publish _ => true | _ => false)).length

/-! ## Concrete fixtures used by the theorems -/

/-- A plain latch actor (no inversion, no auto-reset), as used for the
cover demonstrations. -/
def plainActor : ActorSt := { inverted := false, resetDelay := 0 }

/-- The §8 scenario: each verified pair fed exactly the configured
verification count (2) times, all past the 500 ms stabilization window of
a cover built at instant 0. -/
def closedOpeningOpenUpdates : List (Bool × Bool × ℤ) :=
  [(false, true, 1000), (false, true, 1100), (false, false, 1200),
   (false, false, 1300), (true, false, 1400), (true, false, 1500)]

/-- An inverted sensor with the default 50 ms debounce window and 3
required stable readings. -/
def invertedSensorCfg : SensorCfg :=
  { inverted := true, debounceTime := 50, stableReadings := 3 }

/-- Three raw reads of `false` on an inverted sensor, 100 ms apart: the
logical value `true` is confirmed at the third poll. -/
def invertedSensorPolls : List (Bool × ℤ) :=
  [(false, 0), (false, 100), (false, 200)]

/-! ## Theorems -/

/-! ### Sensor debounce helper lemmas -/

theorem debounceAdvance_state (cfg : SensorCfg) (raw : Bool) (now : ℤ)
    (s : SensorSt) : (debounceAdvance cfg raw now s).state = s.state := by
  unfold debounceAdvance
  rcases hl : s.lastRaw with _ | v <;> dsimp only <;> split_ifs <;> rfl

theorem debounceAdvance_lastRaw (cfg : SensorCfg) (raw : Bool) (now : ℤ)
    (s : SensorSt) :
    (debounceAdvance cfg raw now s).lastRaw = some (logicalRead cfg raw) := by
  unfold debounceAdvance
  rcases hl : s.lastRaw with _ | v
  · rfl
  · dsimp only
    split_ifs with h1 h2
    · rfl
    · rw [not_not] at h1
      simp [hl, h1]
    · rw [not_not] at h1
      simp [hl, h1]

theorem debounceAdvance_count_none (cfg : SensorCfg) (raw : Bool) (now : ℤ)
    (s : SensorSt) (h : s.lastRaw = none) :
    (debounceAdvance cfg raw now s).stableCount = 1 := by
  unfold debounceAdvance
  rw [h]

theorem debounceAdvance_count_ne (cfg : SensorCfg) (raw : Bool) (now : ℤ)
    (s : SensorSt) (v : Bool) (h : s.lastRaw = some v)
    (hne : logicalRead cfg raw ≠ v) :
    (debounceAdvance cfg raw now s).stableCount = 1 := by
  unfold debounceAdvance
  rw [h]
  dsimp only
  rw [if_pos hne]

theorem debounceAdvance_count_eq (cfg : SensorCfg) (raw : Bool) (now : ℤ)
    (s : SensorSt) (v : Bool) (h : s.lastRaw = some v)
    (heq : logicalRead cfg raw = v) :
    (debounceAdvance cfg raw now s).stableCount ≤ s.stableCount + 1 := by
  unfold debounceAdvance
  rw [h]
  dsimp only
  split_ifs with h1 h2
  · exact absurd heq h1
  · exact le_refl _
  · exact Nat.le_succ _

theorem checkAndUpdateState_count (cfg : SensorCfg) (raw : Bool) (now : ℤ)
    (s : SensorSt) :
    (checkAndUpdateState cfg raw now s).1.stableCount =
      (debounceAdvance cfg raw now s).stableCount := by
  unfold checkAndUpdateState
  dsimp only
  split_ifs <;> rfl

theorem checkAndUpdateState_lastRaw (cfg : SensorCfg) (raw : Bool) (now : ℤ)
    (s : SensorSt) :
    (checkAndUpdateState cfg raw now s).1.lastRaw =
      some (logicalRead cfg raw) := by
  unfold checkAndUpdateState
  dsimp only
  split_ifs <;> exact debounceAdvance_lastRaw cfg raw now s

theorem sensor_step_state_iff (cfg : SensorCfg) (raw : Bool) (now : ℤ)
    (s : SensorSt) :
    ((checkAndUpdateState cfg raw now s).1.state ≠ s.state) ↔
      (cfg.stableReadings ≤ (checkAndUpdateState cfg raw now s).1.stableCount ∧
        logicalRead cfg raw ≠ s.state) := by
  have hs := debounceAdvance_state cfg raw now s
  rw [checkAndUpdateState_count]
  unfold checkAndUpdateState
  dsimp only
  split_ifs with h
  · dsimp only
    rw [hs] at h
    exact ⟨fun _ => h, fun _ => h.2⟩
  · dsimp only
    rw [hs] at h
    rw [hs]
    simp only [ne_eq, not_true_eq_false, false_iff]
    intro hc
    exact h ⟨hc.1, hc.2⟩

theorem sensor_step_reset (cfg : SensorCfg) (raw : Bool) (now : ℤ)
    (s : SensorSt) (v : Bool) (h : s.lastRaw = some v)
    (hne : logicalRead cfg raw ≠ v) :
    (checkAndUpdateState cfg raw now s).1.stableCount = 1 := by
  rw [checkAndUpdateState_count]
  exact debounceAdvance_count_ne cfg raw now s v h hne

theorem sensor_step_callbacks (cfg : SensorCfg) (raw : Bool) (now : ℤ)
    (s : SensorSt) :
    (checkAndUpdateState cfg raw now s).2 =
      (if (checkAndUpdateState cfg raw now s).1.state = s.state then []
        else [(checkAndUpdateState cfg raw now s).1.state]) := by
  have hs := debounceAdvance_state cfg raw now s
  by_cases h : cfg.stableReadings ≤ (debounceAdvance cfg raw now s).stableCount ∧
      logicalRead cfg raw ≠ (debounceAdvance cfg raw now s).state
  · have hstep : checkAndUpdateState cfg raw now s =
        ({ debounceAdvance cfg raw now s with state := logicalRead cfg raw },
          [logicalRead cfg raw]) := by
      simp only [checkAndUpdateState]
      rw [if_pos h]
    rw [hstep]
    rw [hs] at h
    dsimp only
    rw [if_neg h.2]
  · have hstep : checkAndUpdateState cfg raw now s =
        (debounceAdvance cfg raw now s, []) := by
      simp only [checkAndUpdateState]
      rw [if_neg h]
    rw [hstep]
    dsimp only
    rw [if_pos hs]

theorem pollRun_cons (cfg : SensorCfg) (p : Bool × ℤ)
    (ps : List (Bool × ℤ)) (s : SensorSt) (acc : List Bool) :
    (List.foldl
      (fun acc q =>
        let r := checkAndUpdateState cfg q.1 q.2 acc.1
        (r.1, acc.2 ++ r.2)) (s, acc) (p :: ps)) =
      (List.foldl
        (fun acc q =>
          let r := checkAndUpdateState cfg q.1 q.2 acc.1
          (r.1, acc.2 ++ r.2))
        ((checkAndUpdateState cfg p.1 p.2 s).1,
          acc ++ (checkAndUpdateState cfg p.1 p.2 s).2) ps) := by
  rfl

theorem pollRun_snoc (cfg : SensorCfg) (ps : List (Bool × ℤ))
    (p : Bool × ℤ) (s : SensorSt) :
    (pollRun cfg (ps ++ [p]) s).1 =
      (checkAndUpdateState cfg p.1 p.2 (pollRun cfg ps s).1).1 := by
  unfold pollRun
  rw [List.foldl_append]
  rfl

theorem trailingSame_snoc_eq (cfg : SensorCfg) (v : Bool)
    (ps : List (Bool × ℤ)) (p : Bool × ℤ) (h : logicalRead cfg p.1 = v) :
    trailingSame cfg v (ps ++ [p]) = trailingSame cfg v ps + 1 := by
  unfold trailingSame
  rw [List.reverse_append]
  simp [List.takeWhile_cons, h]

theorem pollRun_count_le_trailing (cfg : SensorCfg)
    (ps : List (Bool × ℤ)) :
    ∀ v, (pollRun cfg ps sensorInit).1.lastRaw = some v →
      (pollRun cfg ps sensorInit).1.stableCount ≤ trailingSame cfg v ps := by
  induction ps using List.reverseRecOn with
  | nil =>
      intro v hv
      exact absurd hv (by simp [pollRun, sensorInit])
  | append_singleton ps p ih =>
      intro v hv
      rw [pollRun_snoc] at hv ⊢
      have hlast := checkAndUpdateState_lastRaw cfg p.1 p.2
        (pollRun cfg ps sensorInit).1
      rw [hlast] at hv
      have hvu : v = logicalRead cfg p.1 := (Option.some.inj hv).symm
      subst hvu
      rw [checkAndUpdateState_count]
      rcases ht : (pollRun cfg ps sensorInit).1.lastRaw with _ | w
      · rw [debounceAdvance_count_none cfg p.1 p.2 _ ht,
          trailingSame_snoc_eq cfg _ ps p rfl]
        exact Nat.le_add_left 1 _
      · by_cases hw : logicalRead cfg p.1 = w
        · have hcount := debounceAdvance_count_eq cfg p.1 p.2
            (pollRun cfg ps sensorInit).1 w ht hw
          have hih := ih w ht
          rw [trailingSame_snoc_eq cfg _ ps p rfl]
          calc (debounceAdvance cfg p.1 p.2 (pollRun cfg ps sensorInit).1).stableCount
              ≤ (pollRun cfg ps sensorInit).1.stableCount + 1 := hcount
            _ ≤ trailingSame cfg w ps + 1 := Nat.add_le_add_right hih 1
            _ = trailingSame cfg (logicalRead cfg p.1) ps + 1 := by rw [hw]
        · rw [debounceAdvance_count_ne cfg p.1 p.2 _ w ht hw,
            trailingSame_snoc_eq cfg _ ps p rfl]
          exact Nat.le_add_left 1 _

/-- C2: per poll step, the confirmed state (`Sensor._state`) changes iff
the logical (inversion-applied) value differs from the confirmed state and
the stability counter has reached `_stable_readings` (reads inside the
debounce window do not advance the counter); a differing read resets the
counter to 1; on each confirmed change the `onChange` callback is invoked
exactly once with the new state; and in any polling run from a fresh
sensor, a confirmed change at some poll implies the same logical value was
observed on at least `_stable_readings` consecutive trailing polls. -/
theorem sensor_debounce_characterization (cfg : SensorCfg) (s : SensorSt)
    (raw : Bool) (now : ℤ) (ps : List (Bool × ℤ)) (p : Bool × ℤ) :
    (((checkAndUpdateState cfg raw now s).1.state ≠ s.state) ↔
      (cfg.stableReadings ≤ (checkAndUpdateState cfg raw now s).1.stableCount ∧
        logicalRead cfg raw ≠ s.state)) ∧
    (∀ v, s.lastRaw = some v → logicalRead cfg raw ≠ v →
      (checkAndUpdateState cfg raw now s).1.stableCount = 1) ∧
    ((checkAndUpdateState cfg raw now s).2 =
      (if (checkAndUpdateState cfg raw now s).1.state = s.state then []
        else [(checkAndUpdateState cfg raw now s).1.state])) ∧
    ((checkAndUpdateState cfg p.1 p.2 (pollRun cfg ps sensorInit).1).1.state ≠
        (pollRun cfg ps sensorInit).1.state →
      cfg.stableReadings ≤ trailingSame cfg (logicalRead cfg p.1) (ps ++ [p])) := by
  refine ⟨sensor_step_state_iff cfg raw now s,
    fun v hv hne => sensor_step_reset cfg raw now s v hv hne,
    sensor_step_callbacks cfg raw now s, ?_⟩
  intro hchange
  have hcount :=
    (sensor_step_state_iff cfg p.1 p.2 (pollRun cfg ps sensorInit).1).mp hchange
  have hlast :=
    checkAndUpdateState_lastRaw cfg p.1 p.2 (pollRun cfg ps sensorInit).1
  have hinv := pollRun_count_le_trailing cfg (ps ++ [p])
    (logicalRead cfg p.1) (by rw [pollRun_snoc]; exact hlast)
  rw [pollRun_snoc] at hinv
  exact le_trans hcount.1 hinv

/-- C2 witness: a sensor one stable read short of confirmation confirms
the change on the next stable read past the debounce window. -/
theorem sensor_debounce_characterization_witness :
    (checkAndUpdateState
        { inverted := false, debounceTime := 1, stableReadings := 2 }
        true 5
        { state := false, lastRaw := some true, stableCount := 1,
          lastDebounce := 0 }).1.state ≠
      ({ state := false, lastRaw := some true, stableCount := 1,
          lastDebounce := 0 } : SensorSt).state := by
  exact (sensor_debounce_characterization
    { inverted := false, debounceTime := 1, stableReadings := 2 }
    { state := false, lastRaw := some true, stableCount := 1,
      lastDebounce := 0 }
    true 5 [] (true, 5)).1.mpr (by decide)

/-- C1 counterexample: the claim states that `(open=false, closed=false)`
with previous state `OPEN` yields `OPENING`; `Cover._determine_state`
returns `CLOSING` there (lines 247-250: `old_state == OPEN or OPENING →
CLOSING`). -/
theorem determineState_bothFalse_open_gives_closing :
    determineState false false CoverState.open_ = CoverState.closing ∧
      CoverState.closing ≠ CoverState.opening := by
  decide

/-- C1 (amended): `determineState` is a pure function of
`(open, closed, previous)` matching the truth table with the movement
rows as the code has them: `(false, true) ↦ CLOSED`;
`(true, false) ↦ OPEN`; `(true, true) ↦ ERROR`; `(false, false) ↦
CLOSING if previous ∈ {OPEN, OPENING}, OPENING if previous ∈
{CLOSED, CLOSING}, else UNKNOWN`. -/
theorem determineState_table_amended (prev : CoverState) :
    determineState false true prev = CoverState.closed ∧
    determineState true false prev = CoverState.open_ ∧
    determineState true true prev = CoverState.error ∧
    determineState false false prev =
      (if prev = CoverState.open_ ∨ prev = CoverState.opening then
        CoverState.closing
      else if prev = CoverState.closed ∨ prev = CoverState.closing then
        CoverState.opening
      else CoverState.unknown) := by
  cases prev <;> decide

/-- C4: feeding the verified reading sequence `(open=false, closed=true)`,
then `(false, false)`, then `(true, false)` — each pair repeated the
configured verification count (2) times past the stabilization window —
produces exactly the cover state callbacks `CLOSED, OPENING, OPEN` and
leaves the cover `OPEN`. -/
theorem cover_closed_opening_open_sequence :
    (runCoverUpdates closedOpeningOpenUpdates (mkCover 0 plainActor)).2 =
        [CoverState.closed, CoverState.opening, CoverState.open_] ∧
      (runCoverUpdates closedOpeningOpenUpdates (mkCover 0 plainActor)).1.state =
        CoverState.open_ := by
  decide

/-- C9: when the raw pin read raises during a poll, `sync_poll_once`
returns the last confirmed state, leaves every debounce field unchanged
and invokes no callback (the embedding of the `except` branch is total:
the exception is not propagated). -/
theorem sensor_poll_error_keeps_state (cfg : SensorCfg) (now : ℤ)
    (s : SensorSt) :
    syncPollOnce cfg none now s = ((none, s.state), s, []) := by
  rfl

/-- C7 (code bug demonstration): an inverted sensor confirms the logical
value `true` from raw reads `false`, storing the inversion-applied value
in `_state`; the public `state` property (`IODevice.state`) re-applies
the inversion and therefore yields the raw value `false`, not
`raw XOR inverted = true` as the claim and the property's own doc state. -/
theorem inverted_sensor_state_property_bug :
    (pollRun invertedSensorCfg invertedSensorPolls sensorInit).1.state = true ∧
    deviceStateProp true
        (pollRun invertedSensorCfg invertedSensorPolls sensorInit).1.state = false ∧
    logicalRead invertedSensorCfg false = true ∧
    deviceStateProp true
        (pollRun invertedSensorCfg invertedSensorPolls sensorInit).1.state ≠
      logicalRead invertedSensorCfg false := by
  decide

/-- C3 counterexample: with `reset_delay = 10`, `Set(true)` at instants 0
and 5 on a fresh actor: the stored state never becomes true, no pin is
written, and no auto-reset ever fires — in particular not the exactly-one
reset timed from the second call (instant `5 + 10`) that the claim
predicts.  `Actor.set`'s body dies at the lookup of the undefined
`_apply_inversion` and the blanket `except` swallows the error. -/
theorem actor_set_inert_cex :
    (actorSet 0 true { inverted := false, resetDelay := 10 }).1.state = false ∧
    (false : Bool) ≠ true ∧
    (actorSet 0 true { inverted := false, resetDelay := 10 }).2 = [] ∧
    resetTimes (runActorCalls [(0, true), (5, true)]
        { inverted := false, resetDelay := 10 }).2 = [] ∧
    ([] : List ℤ) ≠ [5 + 10] := by
  decide

/-- C6 (evaluation at the failing input): a non-inverted switch starting
OFF receiving `ON` twice performs zero pin writes and two state publishes
— the second command is *not* short-circuited, because the inert
`Actor.set` never stores `True`, so the actor's state still reads `False`
when the second `ON` arrives and the whole branch (including the MQTT
publish) runs again; a button receiving `ON` twice performs zero pin
writes (the pulses die in `Actor.set`). -/
theorem switch_double_on_zero_writes_two_publishes :
    countPinWrites (execActorTwice EntityType.switch ['O', 'N'] 0 1
        { inverted := false, resetDelay := 0 }).2 = 0 ∧
    countPublishes (execActorTwice EntityType.switch ['O', 'N'] 0 1
        { inverted := false, resetDelay := 0 }).2 = 2 ∧
    (executeActorCommand EntityType.switch ['O', 'N'] 1
        (executeActorCommand EntityType.switch ['O', 'N'] 0
          { inverted := false, resetDelay := 0 }).1).2 =
      [Ev.publish ['O', 'N']] ∧
    countPinWrites (execActorTwice EntityType.button ['O', 'N'] 0 1
        { inverted := false, resetDelay := 0 }).2 = 0 := by
  decide

/-- C8 counterexample: the actor command path does not upper-case: the
switch command `"on"` is compared verbatim against `"ON"`, evaluates to
the OFF request and is short-circuited (no event at all), while `"ON"`
takes the command branch and publishes the state — the same word in
different letter case causes different behavior. -/
theorem actor_command_case_sensitive_cex :
    executeActorCommand EntityType.switch ['o', 'n'] 0
        { inverted := false, resetDelay := 0 } ≠
      executeActorCommand EntityType.switch ['O', 'N'] 0
        { inverted := false, resetDelay := 0 } := by
  decide

/-- C5: while the movement monitor runs, once more than
`_movement_timeout` has elapsed since `_last_action_time` with the cover
still in `OPENING`/`CLOSING`, one monitor iteration forces `UNKNOWN`,
fires the state-changed callback once, and clears its running flag (so
later iterations do nothing — the timeout fires exactly once); a
transition into `OPENING`/`CLOSING` while the monitor is already running
only refreshes `_last_action_time` (no second monitor thread is started);
the default timeout is 60 s (60000 ms). -/
theorem cover_movement_watchdog (c : CoverSt) (now : ℤ) (st : CoverState) :
    (c.monitorRunning = true →
      c.movementTimeout < now - c.lastActionTime →
      (c.state = CoverState.opening ∨ c.state = CoverState.closing) →
      monitorStep now c =
        ({ c with state := CoverState.unknown, monitorRunning := false },
          [CoverState.unknown])) ∧
    (c.monitorRunning = false → monitorStep now c = (c, [])) ∧
    ((st = CoverState.opening ∨ st = CoverState.closing) →
      c.monitorRunning = true →
      manageMovementMonitoring st now c = { c with lastActionTime := now }) ∧
    (∀ (t : ℤ) (a : ActorSt), (mkCover t a).movementTimeout = 60000) := by
  refine ⟨?_, ?_, ?_, fun t a => rfl⟩
  · intro h1 h2 h3
    simp [monitorStep, h1, h2, h3]
  · intro h1
    simp [monitorStep, h1]
  · intro h1 h2
    simp [manageMovementMonitoring, h1, h2]

/-- C5 witness: a monitor iteration 61 s after the last action on a cover
stuck in `OPENING` forces `UNKNOWN`, fires the callback, and stops. -/
theorem cover_movement_watchdog_witness :
    monitorStep 61000
        { (mkCover 0 plainActor) with
            state := CoverState.opening
            monitorRunning := true } =
      ({ (mkCover 0 plainActor) with
          state := CoverState.unknown
          monitorRunning := false }, [CoverState.unknown]) := by
  exact (cover_movement_watchdog
    { (mkCover 0 plainActor) with
        state := CoverState.opening
        monitorRunning := true } 61000 CoverState.opening).1
    rfl (by decide) (Or.inl rfl)

/-- C10: on an initialized cover whose last verified reading is already
`(open=False, closed=False)`, every further `update_sensor_states(False,
False)` call bypasses pairwise verification (the verified reading and the
verification counter stay untouched) and recomputes the state from the
previous one, flipping `OPENING` to `CLOSING` and `CLOSING` to `OPENING`
and firing the state-changed callback on every such call. -/
theorem cover_unchanged_reading_oscillates (c : CoverSt) (now : ℤ)
    (hinit : c.initialized = true)
    (hlast : c.lastVerifiedReading = some (false, false)) :
    (c.state = CoverState.opening →
      (updateSensorStates false false now c).1.state = CoverState.closing ∧
      (updateSensorStates false false now c).2 = [CoverState.closing] ∧
      (updateSensorStates false false now c).1.lastVerifiedReading =
        c.lastVerifiedReading ∧
      (updateSensorStates false false now c).1.verificationCount =
        c.verificationCount ∧
      (updateSensorStates false false now c).1.initialized = true) ∧
    (c.state = CoverState.closing →
      (updateSensorStates false false now c).1.state = CoverState.opening ∧
      (updateSensorStates false false now c).2 = [CoverState.opening] ∧
      (updateSensorStates false false now c).1.lastVerifiedReading =
        c.lastVerifiedReading ∧
      (updateSensorStates false false now c).1.verificationCount =
        c.verificationCount ∧
      (updateSensorStates false false now c).1.initialized = true) := by
  constructor
  · intro hst
    cases hm : c.monitorRunning <;>
      simp [updateSensorStates, hinit, hlast, hst, determineState,
        manageMovementMonitoring, hm]
  · intro hst
    cases hm : c.monitorRunning <;>
      simp [updateSensorStates, hinit, hlast, hst, determineState,
        manageMovementMonitoring, hm]

/-- C10 witness: a concrete initialized cover in `OPENING` with last
verified reading `(False, False)` flips to `CLOSING` and fires the
callback on one more identical update. -/
theorem cover_unchanged_reading_oscillates_witness :
    (updateSensorStates false false 2000
        { (mkCover 0 plainActor) with
            initialized := true
            lastVerifiedReading := some (false, false)
            state := CoverState.opening }).1.state = CoverState.closing ∧
      (updateSensorStates false false 2000
        { (mkCover 0 plainActor) with
            initialized := true
            lastVerifiedReading := some (false, false)
            state := CoverState.opening }).2 = [CoverState.closing] := by
  have h := (cover_unchanged_reading_oscillates
    { (mkCover 0 plainActor) with
        initialized := true
        lastVerifiedReading := some (false, false)
        state := CoverState.opening } 2000 rfl rfl).1 rfl
  exact ⟨h.1, h.2.1⟩

/-- One run step on an actor with no alive reset thread is the identity
and emits nothing: the due-reset check finds no thread and `Actor.set`
is inert. -/
theorem actorCallStep_inert (acc : ActorSt × List Ev) (c : ℤ × Bool)
    (h : acc.1.pendingReset = none) : actorCallStep acc c = acc := by
  simp [actorCallStep, fireDueReset, actorSet, actorApplyInversionLookup, h]

/-- Folding run steps over any call list from an actor with no alive
reset thread changes nothing. -/
theorem foldl_actorCallStep_inert (calls : List (ℤ × Bool))
    (a : ActorSt) (evs : List Ev) (h : a.pendingReset = none) :
    List.foldl actorCallStep (a, evs) calls = (a, evs) := by
  induction calls with
  | nil => rfl
  | cons c tl ih =>
      rw [List.foldl_cons, actorCallStep_inert (a, evs) c h]
      exact ih

/-- A whole `set`-call run on an actor with no alive reset thread
returns the actor unchanged with no events — in particular no
auto-reset. -/
theorem runActorCalls_inert (calls : List (ℤ × Bool)) (a : ActorSt)
    (h : a.pendingReset = none) : runActorCalls calls a = (a, []) := by
  simp only [runActorCalls]
  rw [foldl_actorCallStep_inert calls a [] h]
  simp [h]

/-- C3 (amended): `Actor.set` performs no observable action — its `try`
body raises `AttributeError` at the lookup of the undefined
`_apply_inversion` and the blanket `except` swallows it — so no pin is
ever written, the stored state never changes, no reset thread is ever
armed and no auto-reset ever fires, whatever the value, the reset delay
or the call sequence; in particular `Set(false)` has nothing to cancel
(the class contains no timer-cancellation code at all). -/
theorem actor_set_inert_amended (now : ℤ) (v : Bool) (a : ActorSt)
    (calls : List (ℤ × Bool)) (inv : Bool) (delay : ℤ) :
    actorSet now v a = (a, []) ∧
    runActorCalls calls { inverted := inv, resetDelay := delay } =
      ({ inverted := inv, resetDelay := delay }, []) ∧
    resetTimes (runActorCalls calls
        { inverted := inv, resetDelay := delay }).2 = [] := by
  refine ⟨rfl, runActorCalls_inert calls _ rfl, ?_⟩
  rw [runActorCalls_inert calls _ rfl]
  rfl

/-- C8 (amended): cover command handling is case-insensitive — two command
strings equal up to upper-casing act identically — and button command
handling is trivially payload-invariant: every button command returns the
actor unchanged and emits no event (the pulse dies in the inert
`Actor.set`); switch/lock commands, by contrast, are compared verbatim
(see the counterexample). -/
theorem cover_command_case_insensitive_amended :
    (∀ (c1 c2 : Str) (now : ℤ) (cov : CoverSt), strUpper c1 = strUpper c2 →
      executeCoverCommand c1 now cov = executeCoverCommand c2 now cov) ∧
    (∀ (cmd : Str) (now : ℤ) (a : ActorSt),
      executeActorCommand EntityType.button cmd now a = (a, [])) := by
  constructor
  · intro c1 c2 now cov h
    unfold executeCoverCommand
    rw [h]
  · intro cmd now a
    simp [executeActorCommand, actorSet, actorApplyInversionLookup]

/-- C8 amended witness: `"open"` and `"OPEN"` act identically on a
concrete closed cover. -/
theorem cover_command_case_insensitive_amended_witness :
    executeCoverCommand ['o', 'p', 'e', 'n'] 1000
        { (mkCover 0 plainActor) with
            state := CoverState.closed
            initialized := true } =
      executeCoverCommand ['O', 'P', 'E', 'N'] 1000
        { (mkCover 0 plainActor) with
            state := CoverState.closed
            initialized := true } := by
  exact cover_command_case_insensitive_amended.1
    ['o', 'p', 'e', 'n'] ['O', 'P', 'E', 'N'] 1000
    { (mkCover 0 plainActor) with
        state := CoverState.closed
        initialized := true } (by decide)

end Mcp2221
